import Mathlib

/-!
Verification development for the branding-compliance frontend, centred on the
job-status polling engine in
`src/branding_compliance_frontend/src/hooks/usePollingJobStatus.js` and the
upload orchestrator in `src/hooks/useUploadComplianceJob.js` with its
validator `src/utils/validation.js` and normalizer `src/utils/errorHandling.js`.

The JavaScript is shallowly embedded:
* JSON response bodies become the inductive `JsonVal` (JS numbers as `ℚ`;
  `undefined` field access is `Option.none`, a present `null` is `some .null`).
* The hook is a single-threaded cooperative engine.  Its mutable React state
  and refs become the record `Poll.Config`; every `await` point of the source
  splits the surrounding async function into the synchronous segments below,
  and each in-flight request is a `Poll.PTask` entry.  The environment (event
  loop, network, user) drives the engine through `Poll.stepPoll` with
  `Poll.Event`s: a response resolving, a scheduled timeout firing, or a
  user/prop mutation committing (the commit runs the corresponding React
  effect body in the same step).
* `AbortController.abort` only influences which resolution the environment
  can deliver for a request (an abort error instead of data), so the model
  keeps the `abortRef` bookkeeping and lets the environment pick resolutions.
* The numeric backoff delay only determines the real-time instant at which
  the scheduled `timerFire` event occurs; the event model abstracts that
  instant, while `computeBackoff` itself is embedded exactly for the
  numerical claims.
-/

/-- JSON-ish JavaScript values as delivered by the API client. -/
inductive JsonVal where
  | null : JsonVal
  | bool (b : Bool) : JsonVal
  | num (n : ℚ) : JsonVal
  | str (s : String) : JsonVal
  | arr (xs : List JsonVal) : JsonVal
  | obj (fields : List (String × JsonVal)) : JsonVal

/-- Property access `v?.k`: `none` models JS `undefined` (absent field, or
access on a non-object, which in JS yields `undefined` or short-circuits). -/
def jsGet : JsonVal → String → Option JsonVal
  | .obj fields, k => fields.lookup k
  | _, _ => none

/-- `Array.isArray`-guarded array extraction used below. -/
def JsonVal.isNum : JsonVal → Bool
  | .num _ => true
  | _ => false

/-- Whether an optional field value is a JS number (`typeof x === "number"`). -/
def isNumField : Option JsonVal → Bool
  | some (.num _) => true
  | _ => false

/-- Normalized error record produced by `normalizeApiError`
(`src/utils/errorHandling.js`).  The untyped `details` passthrough field is
omitted: no consumer in the claims inspects it. -/
structure ApiError where
  name : String
  message : String
  status : Option Int := none
  requestId : Option String := none
  code : Option String := none
deriving DecidableEq, Repr

/-- The error shapes `normalizeApiError` distinguishes: a falsy value
(`null`/`undefined`/`""`), a (non-empty) string, or an object with optional
`name`/`message`/`status`/`requestId`/`code` fields (`none` = absent, and the
source treats `""` like absent through `||` / truthiness checks). -/
inductive RawErr where
  | nullErr : RawErr
  | strErr (s : String) : RawErr
  | objErr (name message : Option String) (status : Option Int)
      (requestId code : Option String) : RawErr
deriving DecidableEq, Repr

/-- JS `x || default` for an optional string field. -/
def orDefault (o : Option String) (d : String) : String :=
  match o with
  | some s => if s = "" then d else s
  | none => d

/-- JS truthiness filter for an optional string field (`if (err.code) ...`). -/
def keepTruthy (o : Option String) : Option String :=
  match o with
  | some s => if s = "" then none else some s
  | none => none

/-- `normalizeApiError` (`src/utils/errorHandling.js` lines 23-35). -/
def normalizeApiError : RawErr → ApiError
  | .nullErr => { name := "UnknownError", message := "Unexpected error occurred" }
  | .strErr s =>
      -- `if (!err)` catches the empty string before the string branch
      if s = "" then { name := "UnknownError", message := "Unexpected error occurred" }
      else { name := "Error", message := s }
  | .objErr n m st rid cd =>
      { name := orDefault n "Error"
        message := orDefault m "Unexpected error occurred"
        status := st
        requestId := keepTruthy rid
        code := keepTruthy cd }

/-- `computeBackoff` (`usePollingJobStatus.js` lines 33-37):
`Math.min(maxMs, baseMs * 2**attempt + Math.random() * (baseMs / 2))`, with
`rand` standing for the `Math.random()` draw in `[0, 1)`. -/
def computeBackoff (attempt : ℕ) (baseMs maxMs rand : ℚ) : ℚ :=
  min maxMs (baseMs * 2 ^ attempt + rand * (baseMs / 2))

/-- `Math.max(500, options.baseMs || 1000)` (line 86); `none`/`0` model the
falsy option values. -/
def resolveBaseMs (o : Option ℚ) : ℚ :=
  max 500 (match o with | some b => if b = 0 then 1000 else b | none => 1000)

/-- `Math.max(baseMs, options.maxMs || 8000)` (line 87). -/
def resolveMaxMs (baseMs : ℚ) (o : Option ℚ) : ℚ :=
  max baseMs (match o with | some m => if m = 0 then 8000 else m | none => 8000)

/-- `options.resultsPageSize || 10` (line 77). -/
def resolvePageSize (o : Option ℕ) : ℕ :=
  match o with | some n => if n = 0 then 10 else n | none => 10

/-- JS `String.prototype.toLowerCase`, character by character (kernel-reducible,
unlike `String.toLower`). -/
def jsLower (s : String) : String := .mk (s.data.map Char.toLower)

/-- JS `String.prototype.trim`: strip whitespace from both ends. -/
def jsTrim (s : String) : String :=
  .mk (((s.data.dropWhile Char.isWhitespace).reverse.dropWhile Char.isWhitespace).reverse)

/-- Status adopted from a status-fetch body (`fetchStatus`, line 120):
`(data?.status || "pending").toLowerCase()`.  `none` models the `TypeError`
thrown (and caught by the surrounding `catch`) when the field holds a truthy
non-string, which has no `toLowerCase`. -/
def statusOf (data : JsonVal) : Option String :=
  match jsGet data "status" with
  | some (.str s) => some (if s = "" then "pending" else jsLower s)
  | some .null => some "pending"
  | some (.bool false) => some "pending"
  | some (.bool true) => none
  | some (.num n) => if n = 0 then some "pending" else none
  | some (.arr _) => none
  | some (.obj _) => none
  | none => some "pending"

/-- `fetchResults` list extraction (line 149):
`Array.isArray(res?.violations) ? res.violations : (Array.isArray(res) ? res : [])`. -/
def extractViolations (res : JsonVal) : List JsonVal :=
  match jsGet res "violations" with
  | some (.arr xs) => xs
  | _ => match res with
         | .arr xs => xs
         | _ => []

/-- The optional chain `res?.pagination?.total` from line 150. -/
def paginationChain (res : JsonVal) : Option JsonVal :=
  (jsGet res "pagination").bind (fun p => jsGet p "total")

/-- `fetchResults` total extraction (line 150):
`typeof res?.total === "number" ? res.total : (res?.pagination?.total ?? null)`. -/
def extractTotal (res : JsonVal) : JsonVal :=
  match jsGet res "total" with
  | some (.num n) => .num n
  | _ =>
      match paginationChain res with
      | some v => if v matches .null then .null else v
      | none => .null

namespace Poll

/-- The result filter state: `useState({ severity: "", q: "" })` (line 78). -/
structure ResFilter where
  severity : String
  q : String
deriving DecidableEq, Repr

/-- The `(page, pageSize, filter)` tuple a results request is issued for. -/
structure Tuple where
  page : ℕ
  pageSize : ℕ
  filter : ResFilter
deriving DecidableEq, Repr

/-- Query parameters built by `fetchResults` (lines 138-143); `none` models a
field set to `undefined` and therefore omitted from the request. -/
structure QueryParams where
  page : ℕ
  pageSize : ℕ
  severity : Option String
  q : Option String
deriving DecidableEq, Repr

/-- Lines 138-143: `severity: filter.severity || undefined`,
`q: (filter.q || "").trim() || undefined`. -/
def buildQuery (t : Tuple) : QueryParams :=
  { page := t.page
    pageSize := t.pageSize
    severity := if t.filter.severity = "" then none else some t.filter.severity
    q := if jsTrim t.filter.q = "" then none else some (jsTrim t.filter.q) }

/-- An in-flight request together with the suspended continuation that will
consume its response:
* `tickStatus`: the poll-loop `tick` suspended at `await fetchStatus()` (line 166);
* `tickResults st tup`: `tick` suspended at `await fetchResults()` (line 173),
  remembering the status `st` that triggered it and the `(page, pageSize,
  filter)` tuple the request was issued for;
* `oobResults tup`: an out-of-band `fetchResults()` from the
  page/filter-change effect (lines 233-238), suspended at its own fetch. -/
inductive PTask where
  | tickStatus (tid : ℕ) : PTask
  | tickResults (tid : ℕ) (st : String) (tup : Tuple) : PTask
  | oobResults (tid : ℕ) (tup : Tuple) : PTask
deriving DecidableEq, Repr

def PTask.tid : PTask → ℕ
  | .tickStatus t => t
  | .tickResults t _ _ => t
  | .oobResults t _ => t

def isTickTask : PTask → Bool
  | .tickStatus _ => true
  | .tickResults _ _ _ => true
  | .oobResults _ _ => false

/-- Complete engine configuration: the hook's React state (lines 71-78), its
refs (lines 80-84), the bound `jobId` prop, the `options.start` flag, the
set of in-flight requests, and a fresh-id counter for requests and timers. -/
structure Config where
  jobId : Option String
  autoStart : Bool
  status : String
  violations : List JsonVal
  totalViolations : JsonVal
  loading : Bool
  error : Option ApiError
  page : ℕ
  pageSize : ℕ
  filter : ResFilter
  runningRef : Bool
  attemptsRef : ℕ
  statusAttemptsRef : ℕ
  timerRef : Option ℕ
  abortRef : Option ℕ
  tasks : List PTask
  nextId : ℕ

def currentTuple (c : Config) : Tuple := ⟨c.page, c.pageSize, c.filter⟩

/-- `cleanupTimer` (lines 91-96): `clearTimeout` and null the ref. -/
def cleanupTimer (c : Config) : Config := { c with timerRef := none }

/-- `cancelOngoing` (lines 98-103).  `abort()` only constrains which
resolution the environment may later deliver for that request; the state
effect is nulling the ref. -/
def cancelOngoing (c : Config) : Config := { c with abortRef := none }

/-- `stop` (lines 105-109). -/
def stopFn (c : Config) : Config :=
  cancelOngoing (cleanupTimer { c with runningRef := false })

/-- The synchronous prefix of `tick` (lines 162-166): bail out unless the
loop is running and a job is bound, set `loading`, and issue the status fetch
(`fetchStatus` lines 112-114: guard, new `AbortController` into `abortRef`). -/
def tickEntry (c : Config) : Config :=
  if c.runningRef = false ∨ c.jobId = none then c
  else
    { c with loading := true
             abortRef := some c.nextId
             tasks := .tickStatus c.nextId :: c.tasks
             nextId := c.nextId + 1 }

/-- `start` (lines 192-202). -/
def startFn (c : Config) : Config :=
  match c.jobId with
  | none => c
  | some _ =>
      if c.runningRef then c
      else
        tickEntry (cancelOngoing (cleanupTimer
          { c with runningRef := true, attemptsRef := 0, statusAttemptsRef := 0 }))

/-- Tail of `tick` (lines 177-189): stop on a terminal status, otherwise
post-increment the attempt counter, compute the backoff delay and schedule
the next tick (the delay fixes only the real-time firing instant, which the
event model leaves to the environment). -/
def tickFinish (c : Config) (stOpt : Option String) : Config :=
  if stOpt = some "completed" ∨ stOpt = some "failed" then
    cleanupTimer { c with runningRef := false }
  else
    { c with statusAttemptsRef := c.statusAttemptsRef + 1
             timerRef := some c.nextId
             nextId := c.nextId + 1 }

/-- `tick` resumed after `await fetchStatus()` (lines 167-189), `stOpt` being
`fetchStatus`'s return value (`some st` on success, `none` after a caught
error).  On `running`/`completed` it calls `fetchResults` (lines 133-148):
with a bound job this issues the request for the current tuple and suspends;
with no job `fetchResults` returns at once and `tick` continues synchronously. -/
def tickAfterStatus (c : Config) (stOpt : Option String) : Config :=
  let c := { c with loading := false }
  if c.runningRef = false then c
  else
    match stOpt with
    | some st =>
        if st = "running" ∨ st = "completed" then
          match c.jobId with
          | none => tickFinish { c with statusAttemptsRef := 0 } (some st)
          | some _ =>
              { c with abortRef := some c.nextId
                       tasks := .tickResults c.nextId st (currentTuple c) :: c.tasks
                       nextId := c.nextId + 1 }
        else tickFinish c (some st)
    | none => tickFinish c none

/-- The body of `fetchStatus`'s `try`/`catch`/`finally` once the response is
in (lines 120-130): on success adopt the normalized status and clear the
error (a truthy non-string `status` raises a `TypeError` inside the `try`,
landing in the same `catch`); on failure record the normalized error.
Returns the configuration and `fetchStatus`'s return value. -/
def statusResolve (c : Config) (resp : Except RawErr JsonVal) : Config × Option String :=
  match resp with
  | .ok data =>
      match statusOf data with
      | some st => ({ c with status := st, error := none, abortRef := none }, some st)
      | none =>
          ({ c with error := some { name := "TypeError",
                                    message := "data.status.toLowerCase is not a function" }
                    abortRef := none }, none)
  | .error e => ({ c with error := some (normalizeApiError e), abortRef := none }, none)

/-- The body of `fetchResults`'s `try`/`catch`/`finally` once the response is
in (lines 149-159): on success replace `violations` and `totalViolations`
wholesale and clear the error — with no check that the tuple the request was
issued for is still current; on failure record the normalized error only. -/
def resultsResolve (c : Config) (resp : Except RawErr JsonVal) : Config :=
  match resp with
  | .ok res =>
      { c with violations := extractViolations res
               totalViolations := extractTotal res
               error := none
               abortRef := none }
  | .error e => { c with error := some (normalizeApiError e), abortRef := none }

/-- `tick` resumed after `await fetchResults()` (lines 174-189): reset the
status-backoff counter — unconditionally, whether or not the results fetch
succeeded — then run the terminal check / scheduling tail. -/
def resumeTickResults (c : Config) (st : String) : Config :=
  tickFinish { c with statusAttemptsRef := 0 } (some st)

def findTask (c : Config) (tid : ℕ) : Option PTask :=
  c.tasks.find? (fun t => t.tid = tid)

def removeTask (c : Config) (tid : ℕ) : Config :=
  { c with tasks := c.tasks.filter (fun t => t.tid ≠ tid) }

/-- The out-of-band `fetchResults()` call made by the effect at lines
233-238 after a `page`/`pageSize`/`filter` commit. -/
def oobFetch (c : Config) : Config :=
  if c.runningRef ∧ c.jobId ≠ none ∧ (c.status = "running" ∨ c.status = "completed") then
    { c with abortRef := some c.nextId
             tasks := .oobResults c.nextId (currentTuple c) :: c.tasks
             nextId := c.nextId + 1 }
  else c

/-- Environment events driving the engine: user/prop mutations committing
(together with the React effect bodies that commit runs), the scheduled
timeout firing, and in-flight requests resolving. -/
inductive Event where
  | startEv : Event
  | stopEv : Event
  | setFilterEv (f : ResFilter) : Event
  | setPageEv (n : ℕ) : Event
  | setPageSizeEv (n : ℕ) : Event
  | bindJob (j : Option String) : Event
  | timerFire : Event
  | resolveStatus (tid : ℕ) (resp : Except RawErr JsonVal) : Event
  | resolveResults (tid : ℕ) (resp : Except RawErr JsonVal) : Event

/-- One step of the engine. -/
def stepPoll (c : Config) : Event → Config
  | .startEv => startFn c
  | .stopEv => stopFn c
  | .setFilterEv f => oobFetch { c with filter := f }
  | .setPageEv n => oobFetch { c with page := n }
  | .setPageSizeEv n => oobFetch { c with pageSize := n }
  | .bindJob j =>
      -- effect at lines 214-230: the previous effect's cleanup (`stop`) runs
      -- first, then the body for the new `jobId` value
      let c1 : Config := { stopFn c with jobId := j }
      match j with
      | none =>
          { stopFn c1 with status := "idle", violations := [],
                           totalViolations := .null, error := none }
      | some _ => if c1.autoStart then startFn c1 else c1
  | .timerFire =>
      -- in JS the fired timer id stays in `timerRef`; clearing it here is
      -- observationally equivalent (clearTimeout on a fired id is a no-op)
      -- and encodes that a timeout fires at most once
      match c.timerRef with
      | some _ => tickEntry { c with timerRef := none }
      | none => c
  | .resolveStatus tid resp =>
      match findTask c tid with
      | some (.tickStatus _) =>
          let p := statusResolve (removeTask c tid) resp
          tickAfterStatus p.1 p.2
      | _ => c
  | .resolveResults tid resp =>
      match findTask c tid with
      | some (.tickResults _ st _) =>
          resumeTickResults (resultsResolve (removeTask c tid) resp) st
      | some (.oobResults _ _) => resultsResolve (removeTask c tid) resp
      | _ => c

def runPoll (c : Config) : List Event → Config
  | [] => c
  | e :: es => runPoll (stepPoll c e) es

/-- Initial configuration at mount (lines 71-87), before the mount effect. -/
def initConfig (jobId : Option String) (autoStart : Bool) (pageSizeOpt : Option ℕ) : Config :=
  { jobId := jobId
    autoStart := autoStart
    status := "idle"
    violations := []
    totalViolations := .null
    loading := false
    error := none
    page := 1
    pageSize := resolvePageSize pageSizeOpt
    filter := ⟨"", ""⟩
    runningRef := false
    attemptsRef := 0
    statusAttemptsRef := 0
    timerRef := none
    abortRef := none
    tasks := []
    nextId := 0 }

end Poll

namespace Upload

/-- A JS `File` as the validator inspects it: `name`, MIME `type`, and
`size` (`none` models a non-numeric `size`, which the size check skips). -/
structure JsFile where
  name : String
  mime : String
  size : Option ℕ
deriving DecidableEq, Repr

/-- A JS object holding optional `File` fields under string keys, as passed
to `validateUploadPayload`; `payload.k` is `getFile p k`, with `none` for an
absent key or a `null`/`undefined` value (both falsy). -/
def PayloadObj := List (String × Option JsFile)

def getFile (p : PayloadObj) (k : String) : Option JsFile :=
  match p.lookup k with
  | some (some f) => some f
  | _ => none

/-- `{ ok: boolean, message?: string }` returned by the validators. -/
structure ValResult where
  ok : Bool
  message : Option String
deriving DecidableEq, Repr

/-- Case-insensitive extension test, modelling the `/\.ext$/i` regexes of
`src/utils/validation.js` (the name is lowercased and suffix-tested). -/
def extTest (name ext : String) : Bool :=
  (jsLower name).endsWith ext

/-- `TYPE_MATCHERS.zip` (`validation.js` lines 28-35). -/
def zipMatcher (f : JsFile) : Bool :=
  extTest f.name ".zip" ||
    (f.mime = "application/zip" || f.mime = "application/x-zip-compressed" ||
      f.mime = "multipart/x-zip")

/-- `TYPE_MATCHERS.branding` (line 36). -/
def brandingMatcher (f : JsFile) : Bool :=
  f.mime = "image/png" || extTest f.name ".png"

/-- `TYPE_MATCHERS.guidelines` (lines 37-41). -/
def guidelinesMatcher (f : JsFile) : Bool :=
  f.mime = "application/pdf" || f.mime = "text/plain" ||
    extTest f.name ".pdf" || extTest f.name ".txt"

/-- `TYPE_MATCHERS[kind]` lookup. -/
def typeMatcherFor (kind : String) : Option (JsFile → Bool) :=
  if kind = "zip" then some zipMatcher
  else if kind = "branding" then some brandingMatcher
  else if kind = "guidelines" then some guidelinesMatcher
  else none

/-- `validateFileType` (`validation.js` lines 53-59). -/
def validateFileType (kind : String) (file : Option JsFile) : ValResult :=
  match file with
  | none => ⟨false, some ("File (" ++ kind ++ ") missing.")⟩
  | some f =>
      match typeMatcherFor kind with
      | none => ⟨false, some ("Unsupported kind: " ++ kind)⟩
      | some m =>
          if m f then ⟨true, none⟩
          else ⟨false, some ("Invalid " ++ kind ++ " file type.")⟩

/-- `LIMITS[kind] ?? 10MB` (`validation.js` lines 21-25, 72). -/
def limitFor (kind : String) : ℕ :=
  if kind = "zip" then 200 * 1024 * 1024
  else if kind = "branding" then 10 * 1024 * 1024
  else if kind = "guidelines" then 10 * 1024 * 1024
  else 10 * 1024 * 1024

/-- `validateFileSize` (`validation.js` lines 70-76). -/
def validateFileSize (kind : String) (file : Option JsFile) : ValResult :=
  match file with
  | none => ⟨false, some ("File (" ++ kind ++ ") missing.")⟩
  | some f =>
      match f.size with
      | none => ⟨true, none⟩
      | some sz =>
          if limitFor kind < sz then
            ⟨false, some (kind ++ " exceeds size limit (" ++
              toString (limitFor kind / (1024 * 1024)) ++ "MB).")⟩
          else ⟨true, none⟩

/-- `validateUploadPayload` (`validation.js` lines 87-108): requires truthy
`payload.zip`, `payload.branding` and `payload.guidelines`, then chains the
type checks, the size checks, and the cross-field name rule. -/
def validateUploadPayload (payload : PayloadObj) : ValResult :=
  match getFile payload "zip", getFile payload "branding", getFile payload "guidelines" with
  | some z, some b, some g =>
      let tZip := validateFileType "zip" (some z)
      if tZip.ok = false then tZip else
      let tBrand := validateFileType "branding" (some b)
      if tBrand.ok = false then tBrand else
      let tGuide := validateFileType "guidelines" (some g)
      if tGuide.ok = false then tGuide else
      let sZip := validateFileSize "zip" (some z)
      if sZip.ok = false then sZip else
      let sBrand := validateFileSize "branding" (some b)
      if sBrand.ok = false then sBrand else
      let sGuide := validateFileSize "guidelines" (some g)
      if sGuide.ok = false then sGuide else
      if b.name ≠ "" ∧ g.name ≠ "" ∧ b.name = g.name then
        ⟨false, some "Branding and guidelines must be different files."⟩
      else ⟨true, none⟩
  | _, _, _ => ⟨false, some "All files are required: zip, branding PNG, guidelines."⟩

/-- The object literal `startJob` passes to the validator
(`useUploadComplianceJob.js` line 55): keys `zip`, `oldBrand`, `newBrand`,
`guidelines` — and a boolean `intendReplace` field, irrelevant to the file
lookups the validator performs. -/
def startJobPayload (zip oldBrand newBrand guidelines : Option JsFile) : PayloadObj :=
  [("zip", zip), ("oldBrand", oldBrand), ("newBrand", newBrand),
   ("guidelines", guidelines)]

/-- What `startJob` does after validation: either return the normalized
`ValidationError` without any network call, or issue the multipart
`POST /api/v1/jobs` whose form fields are built at lines 63-70. -/
inductive StartJobAction where
  | validationFailure (err : ApiError) : StartJobAction
  | postMultipartRequest (fields : List (String × String)) : StartJobAction
deriving DecidableEq, Repr

/-- Form-data construction of `startJob` (lines 63-70), with files rendered
by name. -/
def startJobForm (zip oldBrand newBrand : JsFile) (guidelines : JsFile)
    (intendReplace : Bool) : List (String × String) :=
  [("zip", zip.name), ("old_brand", oldBrand.name)] ++
    (if intendReplace then [("new_brand", newBrand.name)] else []) ++
    [("guidelines", guidelines.name), ("intend_replace", toString intendReplace)]

/-- `startJob` up to its first network interaction
(`useUploadComplianceJob.js` lines 50-76): validate the payload built at
line 55; on failure normalize `{name: "ValidationError", message: val.message,
code: "VALIDATION_FAILED"}` and return it, else submit the multipart form.
(`if (intendReplace && newBrand)` means the `new_brand` part needs both.) -/
def startJob (zip oldBrand newBrand guidelines : Option JsFile)
    (intendReplace : Bool) : StartJobAction :=
  let val := validateUploadPayload (startJobPayload zip oldBrand newBrand guidelines)
  if val.ok = false then
    .validationFailure (normalizeApiError
      (.objErr (some "ValidationError") val.message none none (some "VALIDATION_FAILED")))
  else
    match zip, oldBrand, guidelines with
    | some z, some ob, some g =>
        .postMultipartRequest
          (startJobForm z ob (newBrand.getD ⟨"", "", none⟩) g
            (intendReplace && newBrand.isSome))
    | _, _, _ => .postMultipartRequest []

end Upload

namespace Poll

/-- The engine is quiescent: the poll loop is marked not-running, no tick is
scheduled, and no tick-owned request is in flight (out-of-band results
fetches are not ticks). -/
def Quiescent (c : Config) : Prop :=
  c.runningRef = false ∧ c.timerRef = none ∧ ∀ t ∈ c.tasks, isTickTask t = false

/-- Events other than an explicit `start()` call or a `jobId` rebinding
(whose effect may auto-start the loop). -/
def NonRestart : Event → Prop
  | .startEv => False
  | .bindJob _ => False
  | _ => True

/-- A status body reporting `running`. -/
def runningBody : JsonVal := .obj [("status", .str "running")]

/-- A status body reporting `pending`. -/
def pendingBody : JsonVal := .obj [("status", .str "pending")]

/-- A status body reporting `failed`. -/
def failedBody : JsonVal := .obj [("status", .str "failed")]

/-- A results body: one violation, server total 3. -/
def resBodyA : JsonVal := .obj [("violations", .arr [.str "vA"]), ("total", .num 3)]

/-- The filter value a user switches to in the scenarios below. -/
def filterB : ResFilter := ⟨"high", "logo"⟩

/-- Freshly started engine for job `"j"`: one in-flight status fetch
(request 0). -/
def exStarted : Config := runPoll (initConfig (some "j") false none) [.startEv]

/-- Engine after the first tick's status fetch returned `running`: the tick
is suspended on its results fetch (request 1) issued for the initial tuple
`(page 1, pageSize 10, empty filter)`. -/
def exRunning : Config := runPoll (initConfig (some "j") false none)
  [.startEv, .resolveStatus 0 (.ok runningBody)]

/-- `exRunning` after the user committed `setFilter(filterB)`: the old
results fetch (request 1, issued for the empty filter) is still in flight,
and the filter-change effect has issued request 2 for the new tuple. -/
def exFilterChanged : Config := stepPoll exRunning (.setFilterEv filterB)

/-- The stale response for request 1 resolving after the filter change. -/
def exStaleApplied : Config := stepPoll exFilterChanged (.resolveResults 1 (.ok resBodyA))

/-- Engine that saw one `pending` tick (backoff counter 1), then a second
tick whose status fetch returned `running`; the tick is suspended on its
results fetch (request 3). -/
def exSecondTick : Config := runPoll (initConfig (some "j") false none)
  [.startEv, .resolveStatus 0 (.ok pendingBody), .timerFire, .resolveStatus 2 (.ok runningBody)]

/-- `exRunning` after the user committed `setPage(3)` (issuing out-of-band
request 2 for page 3). -/
def exPage3 : Config := stepPoll exRunning (.setPageEv 3)

/-- `exRunning` after a completed results fetch, still before any rebinding:
status `running`, one violation shown. -/
def exWithResults : Config := stepPoll exRunning (.resolveResults 1 (.ok resBodyA))

/-- A status body reporting `completed`. -/
def completedBody : JsonVal := .obj [("status", .str "completed")]

/-- Engine whose first tick's status fetch returned `completed`: the tick is
suspended on its final results fetch (request 1). -/
def exCompleted : Config := runPoll (initConfig (some "j") false none)
  [.startEv, .resolveStatus 0 (.ok completedBody)]

/-- Results body whose only total lives at `pagination.total` and is a
string, not a number. -/
def resPagString : JsonVal :=
  .obj [("violations", .arr []), ("pagination", .obj [("total", .str "n/a")])]

end Poll

namespace Poll

/-- `tickFinish` never touches the observable result state. -/
lemma tickFinish_obs (c : Config) (s : Option String) :
    (tickFinish c s).status = c.status ∧ (tickFinish c s).error = c.error ∧
      (tickFinish c s).violations = c.violations ∧
      (tickFinish c s).totalViolations = c.totalViolations := by
  unfold tickFinish cleanupTimer
  split <;> exact ⟨rfl, rfl, rfl, rfl⟩

/-- Resuming `tick` after the status fetch never touches the status just
adopted, the error, or the result state. -/
lemma tickAfterStatus_obs (c : Config) (s : Option String) :
    (tickAfterStatus c s).status = c.status ∧ (tickAfterStatus c s).error = c.error ∧
      (tickAfterStatus c s).violations = c.violations ∧
      (tickAfterStatus c s).totalViolations = c.totalViolations := by
  cases s with
  | none =>
      unfold tickAfterStatus
      dsimp only
      split
      · exact ⟨rfl, rfl, rfl, rfl⟩
      · exact tickFinish_obs _ _
  | some st =>
      unfold tickAfterStatus
      dsimp only
      split
      · exact ⟨rfl, rfl, rfl, rfl⟩
      · split
        · split
          · exact tickFinish_obs _ _
          · exact ⟨rfl, rfl, rfl, rfl⟩
        · exact tickFinish_obs _ _

/-- `resultsResolve` only touches the result state, the error and the abort
ref. -/
lemma resultsResolve_refs (c : Config) (resp : Except RawErr JsonVal) :
    (resultsResolve c resp).runningRef = c.runningRef ∧
      (resultsResolve c resp).timerRef = c.timerRef ∧
      (resultsResolve c resp).tasks = c.tasks ∧
      (resultsResolve c resp).statusAttemptsRef = c.statusAttemptsRef := by
  cases resp <;> exact ⟨rfl, rfl, rfl, rfl⟩

/-- The effect-driven results fetch is a no-op while the loop is stopped. -/
lemma oobFetch_not_running (c : Config) (h : c.runningRef = false) : oobFetch c = c := by
  unfold oobFetch
  rw [if_neg]
  simp [h]

end Poll

namespace Poll

/-- Once the engine is quiescent, any event other than an explicit restart
leaves it quiescent: no tick runs, no timer is (re)scheduled, no tick-owned
request is issued. -/
lemma quiescent_step {c : Config} {e : Event} (hq : Quiescent c) (he : NonRestart e) :
    Quiescent (stepPoll c e) := by
  obtain ⟨hr, ht, htasks⟩ := hq
  cases e with
  | startEv => exact he.elim
  | bindJob j => exact he.elim
  | stopEv => exact ⟨rfl, rfl, htasks⟩
  | setFilterEv f =>
      show Quiescent (oobFetch { c with filter := f })
      rw [oobFetch_not_running { c with filter := f } hr]
      exact ⟨hr, ht, htasks⟩
  | setPageEv n =>
      show Quiescent (oobFetch { c with page := n })
      rw [oobFetch_not_running { c with page := n } hr]
      exact ⟨hr, ht, htasks⟩
  | setPageSizeEv n =>
      show Quiescent (oobFetch { c with pageSize := n })
      rw [oobFetch_not_running { c with pageSize := n } hr]
      exact ⟨hr, ht, htasks⟩
  | timerFire =>
      show Quiescent (match c.timerRef with
        | some _ => tickEntry { c with timerRef := none }
        | none => c)
      rw [ht]
      exact ⟨hr, ht, htasks⟩
  | resolveStatus tid resp =>
      show Quiescent (match findTask c tid with
        | some (.tickStatus _) =>
            let p := statusResolve (removeTask c tid) resp
            tickAfterStatus p.1 p.2
        | _ => c)
      cases hf : findTask c tid with
      | none => exact ⟨hr, ht, htasks⟩
      | some t =>
          have hmem : t ∈ c.tasks := List.mem_of_find?_eq_some hf
          cases t with
          | tickStatus tid' => exact Bool.noConfusion (htasks _ hmem)
          | tickResults tid' st tup => exact ⟨hr, ht, htasks⟩
          | oobResults tid' tup => exact ⟨hr, ht, htasks⟩
  | resolveResults tid resp =>
      show Quiescent (match findTask c tid with
        | some (.tickResults _ st _) =>
            resumeTickResults (resultsResolve (removeTask c tid) resp) st
        | some (.oobResults _ _) => resultsResolve (removeTask c tid) resp
        | _ => c)
      cases hf : findTask c tid with
      | none => exact ⟨hr, ht, htasks⟩
      | some t =>
          have hmem : t ∈ c.tasks := List.mem_of_find?_eq_some hf
          cases t with
          | tickStatus tid' => exact ⟨hr, ht, htasks⟩
          | tickResults tid' st tup => exact Bool.noConfusion (htasks _ hmem)
          | oobResults tid' tup =>
              obtain ⟨r1, r2, r3, _⟩ := resultsResolve_refs (removeTask c tid) resp
              refine ⟨r1.trans hr, r2.trans ht, ?_⟩
              intro t htm
              rw [r3] at htm
              have : t ∈ c.tasks := List.mem_of_mem_filter htm
              exact htasks _ this

/-- Quiescence persists along any event sequence free of restarts. -/
lemma quiescent_run {c : Config} (hq : Quiescent c) :
    ∀ evs : List Event, (∀ e ∈ evs, NonRestart e) → Quiescent (runPoll c evs) := by
  intro evs
  induction evs generalizing c with
  | nil => intro _; exact hq
  | cons e es ih =>
      intro hall
      exact ih (quiescent_step hq (hall e (List.mem_cons_self e es)))
        (fun e' he' => hall e' (List.mem_cons_of_mem e he'))


/-- C2: once a tick's status fetch reports a terminal status, the engine
stops: a `failed` status stops the loop at the status resolution itself, a
`completed` status stops it when that tick's results fetch resolves
(whatever its outcome); in both cases the engine is left not-running with no
scheduled timer and no tick-owned request, and it stays that way — no
further tick is ever scheduled — across any subsequent events that are not
an explicit `start()` or a `jobId` rebinding. -/
theorem claim_C2_terminal_stops :
    (∀ (c : Config) (tid : ℕ) (data : JsonVal),
        c.runningRef = true →
        findTask c tid = some (.tickStatus tid) →
        statusOf data = some "failed" →
        (∀ t ∈ c.tasks, t.tid ≠ tid → isTickTask t = false) →
        Quiescent (stepPoll c (.resolveStatus tid (.ok data)))) ∧
    (∀ (c : Config) (tid : ℕ) (tup : Tuple) (resp : Except RawErr JsonVal),
        findTask c tid = some (.tickResults tid "completed" tup) →
        (∀ t ∈ c.tasks, t.tid ≠ tid → isTickTask t = false) →
        Quiescent (stepPoll c (.resolveResults tid resp))) ∧
    (∀ (c : Config) (evs : List Event),
        Quiescent c → (∀ e ∈ evs, NonRestart e) → Quiescent (runPoll c evs)) := by
  refine ⟨?_, ?_, ?_⟩
  · intro c tid data hr h hst hothers
    simp only [stepPoll, h]
    simp only [statusResolve, hst]
    unfold tickAfterStatus
    rw [if_neg (by simp [removeTask, hr])]
    refine ⟨rfl, rfl, ?_⟩
    intro t htm
    have htm' : t ∈ (removeTask c tid).tasks := htm
    simp only [removeTask, List.mem_filter, decide_eq_true_eq] at htm'
    exact hothers t htm'.1 htm'.2
  · intro c tid tup resp h hothers
    simp only [stepPoll, h]
    obtain ⟨-, -, r3, -⟩ := resultsResolve_refs (removeTask c tid) resp
    refine ⟨rfl, rfl, ?_⟩
    intro t htm
    have htm' : t ∈ (resultsResolve (removeTask c tid) resp).tasks := htm
    rw [r3] at htm'
    simp only [removeTask, List.mem_filter, decide_eq_true_eq] at htm'
    exact hothers t htm'.1 htm'.2
  · intro c evs hq hall
    exact quiescent_run hq evs hall

/-- Witness for C2 at concrete engine runs. -/
theorem claim_C2_terminal_stops_witness :
    (exStarted.runningRef = true ∧
      findTask exStarted 0 = some (.tickStatus 0) ∧
      statusOf failedBody = some "failed" ∧
      (∀ t ∈ exStarted.tasks, t.tid ≠ 0 → isTickTask t = false) ∧
      Quiescent (stepPoll exStarted (.resolveStatus 0 (.ok failedBody)))) ∧
    (findTask exCompleted 1 = some (.tickResults 1 "completed" ⟨1, 10, ⟨"", ""⟩⟩) ∧
      (∀ t ∈ exCompleted.tasks, t.tid ≠ 1 → isTickTask t = false) ∧
      Quiescent (stepPoll exCompleted (.resolveResults 1 (.ok resBodyA)))) ∧
    (Quiescent (initConfig none false none) ∧
      (∀ e ∈ ([.stopEv, .timerFire] : List Event), NonRestart e) ∧
      Quiescent (runPoll (initConfig none false none) [.stopEv, .timerFire])) :=
  ⟨⟨rfl, rfl, rfl, by decide,
      claim_C2_terminal_stops.1 exStarted 0 failedBody rfl rfl rfl (by decide)⟩,
   ⟨rfl, by decide,
      claim_C2_terminal_stops.2.1 exCompleted 1 ⟨1, 10, ⟨"", ""⟩⟩ (.ok resBodyA) rfl (by decide)⟩,
   ⟨⟨rfl, rfl, fun t ht => absurd ht (List.not_mem_nil t)⟩, by simp [NonRestart],
      claim_C2_terminal_stops.2.2 _ _ ⟨rfl, rfl, fun t ht => absurd ht (List.not_mem_nil t)⟩
        (by simp [NonRestart])⟩⟩

end Poll

/-- C4 counterexample: at N = 4 with `baseMs = 1000`, `maxMs = 8000` and zero
jitter, the computed delay is the cap 8000, strictly below the claimed lower
bound `1000 * 2^4 = 16000`. -/
theorem claim_C4_counterexample :
    computeBackoff 4 1000 8000 0 = 8000 ∧
      ¬ ((1000 : ℚ) * 2 ^ 4 ≤ computeBackoff 4 1000 8000 0) := by
  constructor
  · norm_num [computeBackoff]
  · norm_num [computeBackoff]

/-- C4 amended: with `baseMs = 1000`, `maxMs = 8000` and a jitter draw
`rand ∈ [0, 1)` (so jitter `rand * 500 ∈ [0, 500)`), the Nth consecutive
unproductive delay satisfies
`min 8000 (1000 * 2^N) ≤ delay ≤ min 8000 (1000 * 2^N + 500)` — the claimed
bounds hold only with the lower bound also capped at `maxMs`. -/
theorem claim_C4_backoff_bounds (N : ℕ) (rand : ℚ) (h0 : 0 ≤ rand) (h1 : rand < 1) :
    min 8000 (1000 * 2 ^ N) ≤ computeBackoff N 1000 8000 rand ∧
      computeBackoff N 1000 8000 rand ≤ min 8000 (1000 * 2 ^ N + 500) := by
  unfold computeBackoff
  constructor
  · refine min_le_min le_rfl ?_
    have h : 0 ≤ rand * (1000 / 2 : ℚ) := by
      have : (0 : ℚ) ≤ (1000 / 2 : ℚ) := by norm_num
      exact mul_nonneg h0 this
    linarith
  · refine min_le_min le_rfl ?_
    have h : rand * (1000 / 2 : ℚ) ≤ 500 := by nlinarith
    linarith

/-- Witness for C4 at N = 0, rand = 0. -/
theorem claim_C4_backoff_bounds_witness :
    (0 : ℚ) ≤ 0 ∧ (0 : ℚ) < 1 ∧
      (min 8000 (1000 * 2 ^ 0) ≤ computeBackoff 0 1000 8000 0 ∧
        computeBackoff 0 1000 8000 0 ≤ min 8000 (1000 * 2 ^ 0 + 500)) :=
  ⟨le_refl 0, by norm_num, claim_C4_backoff_bounds 0 0 (le_refl 0) (by norm_num)⟩

/-- C9: the payload `startJob` passes to `validateUploadPayload` carries its
files under the keys `zip`/`oldBrand`/`newBrand`/`guidelines` and never a
`branding` key, while the validator requires a truthy `payload.branding`; so
every `startJob` invocation — whatever the inputs — fails validation with
the missing-files message and returns the normalized `ValidationError`
without ever issuing the multipart POST. -/
theorem claim_C9_startJob_always_fails
    (zip oldBrand newBrand guidelines : Option Upload.JsFile) (intendReplace : Bool) :
    Upload.getFile (Upload.startJobPayload zip oldBrand newBrand guidelines) "branding"
        = none ∧
    Upload.validateUploadPayload (Upload.startJobPayload zip oldBrand newBrand guidelines)
        = ⟨false, some "All files are required: zip, branding PNG, guidelines."⟩ ∧
    Upload.startJob zip oldBrand newBrand guidelines intendReplace
        = .validationFailure
            { name := "ValidationError"
              message := "All files are required: zip, branding PNG, guidelines."
              status := none
              requestId := none
              code := some "VALIDATION_FAILED" } := by
  rcases zip with _ | z <;> rcases guidelines with _ | g <;> exact ⟨rfl, rfl, rfl⟩

/-- C10: when a tick's status fetch succeeds, its resolved body determines
the adopted status via `(data?.status || "pending").toLowerCase()`: a body
whose `status` field is absent, `null` or the empty string yields `pending`;
any successfully normalized status is adopted verbatim (lowercased for
non-empty strings) and the fetch clears `PollState.error` to `null`. -/
theorem claim_C10_status_defaults (c : Poll.Config) (tid : ℕ) (data : JsonVal)
    (h : Poll.findTask c tid = some (.tickStatus tid)) :
    ((jsGet data "status" = none ∨ jsGet data "status" = some .null ∨
        jsGet data "status" = some (.str "")) →
      (Poll.stepPoll c (.resolveStatus tid (.ok data))).status = "pending" ∧
      (Poll.stepPoll c (.resolveStatus tid (.ok data))).error = none) ∧
    (∀ st, statusOf data = some st →
      (Poll.stepPoll c (.resolveStatus tid (.ok data))).status = st ∧
      (Poll.stepPoll c (.resolveStatus tid (.ok data))).error = none) ∧
    (∀ s, jsGet data "status" = some (.str s) → s ≠ "" →
      (Poll.stepPoll c (.resolveStatus tid (.ok data))).status = jsLower s) := by
  have key : ∀ st, statusOf data = some st →
      (Poll.stepPoll c (.resolveStatus tid (.ok data))).status = st ∧
      (Poll.stepPoll c (.resolveStatus tid (.ok data))).error = none := by
    intro st hst
    simp only [Poll.stepPoll, h, Poll.statusResolve, hst]
    exact ⟨(Poll.tickAfterStatus_obs _ _).1,
      (Poll.tickAfterStatus_obs _ _).2.1⟩
  refine ⟨?_, key, ?_⟩
  · rintro (hh | hh | hh) <;>
      exact key "pending" (by simp [statusOf, hh])
  · intro s hs hne
    exact (key (jsLower s) (by unfold statusOf; rw [hs]; simp [hne])).1

/-- Witness for C10: a status body with no `status` field yields `pending`
and a cleared error. -/
theorem claim_C10_status_defaults_witness :
    Poll.findTask Poll.exStarted 0 = some (.tickStatus 0) ∧
    jsGet (.obj []) "status" = none ∧
    (Poll.stepPoll Poll.exStarted (.resolveStatus 0 (.ok (.obj [])))).status = "pending" ∧
    (Poll.stepPoll Poll.exStarted (.resolveStatus 0 (.ok (.obj [])))).error = none :=
  ⟨rfl, rfl,
    ((claim_C10_status_defaults Poll.exStarted 0 (.obj []) rfl).1 (Or.inl rfl)).1,
    ((claim_C10_status_defaults Poll.exStarted 0 (.obj []) rfl).1 (Or.inl rfl)).2⟩

/-- C3 counterexample: with status `running` and a fetched violation on
screen, binding the new job id `"b"` (directly replacing `"a"`) leaves the
status `running` — not `idle` — and leaves the previous job's violations and
total in place. -/
theorem claim_C3_counterexample :
    Poll.exWithResults.status = "running" ∧
    Poll.exWithResults.violations = [.str "vA"] ∧
    (Poll.stepPoll Poll.exWithResults (.bindJob (some "b"))).jobId = some "b" ∧
    (Poll.stepPoll Poll.exWithResults (.bindJob (some "b"))).status = "running" ∧
    (Poll.stepPoll Poll.exWithResults (.bindJob (some "b"))).status ≠ "idle" ∧
    (Poll.stepPoll Poll.exWithResults (.bindJob (some "b"))).violations = [.str "vA"] ∧
    (Poll.stepPoll Poll.exWithResults (.bindJob (some "b"))).totalViolations = .num 3 := by
  refine ⟨rfl, rfl, rfl, rfl, ?_, rfl, rfl⟩
  decide

/-- C3 amended: clearing the bound `jobId` forces the transition back to
`idle` and discards all prior `PollState` fields (violations, total, error)
while stopping the loop; binding a new non-null `jobId`, however, only stops
(and optionally restarts) the loop — the previous job's status, violations,
total and error stay in place until fetches for the new job overwrite them. -/
theorem claim_C3_clear_resets (c : Poll.Config) :
    (Poll.stepPoll c (.bindJob none)).status = "idle" ∧
    (Poll.stepPoll c (.bindJob none)).violations = [] ∧
    (Poll.stepPoll c (.bindJob none)).totalViolations = .null ∧
    (Poll.stepPoll c (.bindJob none)).error = none ∧
    (Poll.stepPoll c (.bindJob none)).runningRef = false ∧
    (Poll.stepPoll c (.bindJob none)).timerRef = none ∧
    (∀ j : String, c.autoStart = false →
      (Poll.stepPoll c (.bindJob (some j))).status = c.status ∧
      (Poll.stepPoll c (.bindJob (some j))).violations = c.violations ∧
      (Poll.stepPoll c (.bindJob (some j))).totalViolations = c.totalViolations) := by
  refine ⟨rfl, rfl, rfl, rfl, rfl, rfl, ?_⟩
  intro j ha
  simp only [Poll.stepPoll, Poll.stopFn, Poll.cleanupTimer, Poll.cancelOngoing, ha]
  exact ⟨rfl, rfl, rfl⟩

/-- Witness for C3 (amended) at a concrete configuration. -/
theorem claim_C3_clear_resets_witness :
    (Poll.stepPoll Poll.exWithResults (.bindJob none)).status = "idle" ∧
    (Poll.stepPoll Poll.exWithResults (.bindJob none)).violations = [] ∧
    Poll.exWithResults.autoStart = false ∧
    (Poll.stepPoll Poll.exWithResults (.bindJob (some "b"))).status
        = Poll.exWithResults.status :=
  ⟨(claim_C3_clear_resets Poll.exWithResults).1,
   (claim_C3_clear_resets Poll.exWithResults).2.1,
   rfl,
   ((claim_C3_clear_resets Poll.exWithResults).2.2.2.2.2.2 "b" rfl).1⟩

/-- C5 counterexample: after one `pending` tick the backoff counter is 1; the
next tick's status fetch returns `running` and its results fetch then FAILS,
yet the counter ends at 1 (reset to 0, then post-incremented by the
scheduler) instead of the unreset-and-advanced value 2 the claim implies, so
the next delay is computed from attempt 0 again. -/
theorem claim_C5_counterexample :
    Poll.exSecondTick.statusAttemptsRef = 1 ∧
    Poll.findTask Poll.exSecondTick 3
        = some (.tickResults 3 "running" ⟨1, 10, ⟨"", ""⟩⟩) ∧
    (Poll.stepPoll Poll.exSecondTick
        (.resolveResults 3 (.error (.strErr "boom")))).error
        = some (normalizeApiError (.strErr "boom")) ∧
    (Poll.stepPoll Poll.exSecondTick
        (.resolveResults 3 (.error (.strErr "boom")))).statusAttemptsRef = 1 ∧
    (Poll.stepPoll Poll.exSecondTick
        (.resolveResults 3 (.error (.strErr "boom")))).statusAttemptsRef
        ≠ Poll.exSecondTick.statusAttemptsRef + 1 := by
  refine ⟨rfl, rfl, rfl, rfl, ?_⟩
  decide

/-- C5 amended: the backoff attempt counter is reset to 0 whenever a tick's
status fetch returns `running` (or `completed`), regardless of whether the
accompanying results fetch succeeded — a failed results fetch resets it just
the same; for a `running` tick the scheduling step then post-increments the
counter to exactly 1, whatever its previous value. -/
theorem claim_C5_attempt_reset (c : Poll.Config) (tid : ℕ) (tup : Poll.Tuple)
    (resp : Except RawErr JsonVal)
    (h : Poll.findTask c tid = some (.tickResults tid "running" tup)) :
    (Poll.stepPoll c (.resolveResults tid resp)).statusAttemptsRef = 1 := by
  simp only [Poll.stepPoll, h]
  cases resp <;> rfl

/-- Witness for C5 (amended): a failing results fetch still ends the tick
with the counter at 1. -/
theorem claim_C5_attempt_reset_witness :
    Poll.findTask Poll.exSecondTick 3
        = some (.tickResults 3 "running" ⟨1, 10, ⟨"", ""⟩⟩) ∧
    (Poll.stepPoll Poll.exSecondTick
        (.resolveResults 3 (.error (.strErr "netdown")))).statusAttemptsRef = 1 :=
  ⟨rfl, claim_C5_attempt_reset Poll.exSecondTick 3 ⟨1, 10, ⟨"", ""⟩⟩
      (.error (.strErr "netdown")) rfl⟩

/-- C6 counterexample: with the engine running on page 3, committing a new
filter leaves `page` at 3 — not 1 — and the single results fetch it triggers
is issued for `(page 3, pageSize 10, newFilter)`. -/
theorem claim_C6_counterexample :
    Poll.exPage3.status = "running" ∧
    Poll.exPage3.page = 3 ∧
    (Poll.stepPoll Poll.exPage3 (.setFilterEv Poll.filterB)).filter = Poll.filterB ∧
    (Poll.stepPoll Poll.exPage3 (.setFilterEv Poll.filterB)).page = 3 ∧
    (Poll.stepPoll Poll.exPage3 (.setFilterEv Poll.filterB)).page ≠ 1 ∧
    Poll.findTask (Poll.stepPoll Poll.exPage3 (.setFilterEv Poll.filterB)) 3
        = some (.oobResults 3 ⟨3, 10, Poll.filterB⟩) := by
  refine ⟨rfl, rfl, rfl, rfl, ?_, rfl⟩
  decide

/-- C6 amended: while the engine is running with status `running`, committing
`setFilter(f)` installs the new filter and triggers exactly one out-of-band
results fetch, issued for the new filter at the CURRENT page (page is not
reset to 1) and current page size, and it leaves the status-backoff attempt
counter unchanged. -/
theorem claim_C6_filter_one_fetch (c : Poll.Config) (f : Poll.ResFilter) (j : String)
    (hj : c.jobId = some j) (hr : c.runningRef = true) (hs : c.status = "running") :
    (Poll.stepPoll c (.setFilterEv f)).filter = f ∧
    (Poll.stepPoll c (.setFilterEv f)).page = c.page ∧
    (Poll.stepPoll c (.setFilterEv f)).statusAttemptsRef = c.statusAttemptsRef ∧
    (Poll.stepPoll c (.setFilterEv f)).runningRef = true ∧
    (Poll.stepPoll c (.setFilterEv f)).tasks
        = .oobResults c.nextId ⟨c.page, c.pageSize, f⟩ :: c.tasks := by
  simp only [Poll.stepPoll]
  unfold Poll.oobFetch
  split
  · exact ⟨rfl, rfl, rfl, hr, rfl⟩
  · rename_i hcond
    exact absurd ⟨hr, by simp [hj], Or.inl hs⟩ hcond

/-- Witness for C6 (amended) at a concrete running engine on page 3. -/
theorem claim_C6_filter_one_fetch_witness :
    Poll.exPage3.jobId = some "j" ∧
    Poll.exPage3.runningRef = true ∧
    Poll.exPage3.status = "running" ∧
    ((Poll.stepPoll Poll.exPage3 (.setFilterEv Poll.filterB)).filter = Poll.filterB ∧
      (Poll.stepPoll Poll.exPage3 (.setFilterEv Poll.filterB)).page = Poll.exPage3.page ∧
      (Poll.stepPoll Poll.exPage3 (.setFilterEv Poll.filterB)).statusAttemptsRef
          = Poll.exPage3.statusAttemptsRef ∧
      (Poll.stepPoll Poll.exPage3 (.setFilterEv Poll.filterB)).runningRef = true ∧
      (Poll.stepPoll Poll.exPage3 (.setFilterEv Poll.filterB)).tasks
          = .oobResults Poll.exPage3.nextId
              ⟨Poll.exPage3.page, Poll.exPage3.pageSize, Poll.filterB⟩
            :: Poll.exPage3.tasks) :=
  ⟨rfl, rfl, rfl, claim_C6_filter_one_fetch Poll.exPage3 Poll.filterB "j" rfl rfl rfl⟩

/-- A tick whose status fetch failed (`fetchStatus` returned null) while the
loop is running: `loading` is cleared and the next tick is scheduled with the
attempt counter post-incremented. -/
lemma tickAfterStatus_err (c : Poll.Config) (h : c.runningRef = true) :
    Poll.tickAfterStatus c none =
      { c with loading := false, statusAttemptsRef := c.statusAttemptsRef + 1,
               timerRef := some c.nextId, nextId := c.nextId + 1 } := by
  unfold Poll.tickAfterStatus Poll.tickFinish
  rw [if_neg (by simp [h])]
  rfl

/-- C7: a failed status fetch records the normalized error but does not stop
the loop — the tick still schedules its successor with the attempt counter
post-incremented — and a failed results fetch (whether the tick's own or an
out-of-band one) records the normalized error while leaving the previously
fetched violations and total untouched. -/
theorem claim_C7_error_handling :
    (∀ (c : Poll.Config) (tid : ℕ) (e : RawErr),
        c.runningRef = true →
        Poll.findTask c tid = some (.tickStatus tid) →
        ((Poll.stepPoll c (.resolveStatus tid (.error e))).error
            = some (normalizeApiError e) ∧
          (Poll.stepPoll c (.resolveStatus tid (.error e))).runningRef = true ∧
          (Poll.stepPoll c (.resolveStatus tid (.error e))).statusAttemptsRef
            = c.statusAttemptsRef + 1 ∧
          (Poll.stepPoll c (.resolveStatus tid (.error e))).timerRef = some c.nextId ∧
          (Poll.stepPoll c (.resolveStatus tid (.error e))).violations = c.violations ∧
          (Poll.stepPoll c (.resolveStatus tid (.error e))).totalViolations
            = c.totalViolations)) ∧
    (∀ (c : Poll.Config) (tid : ℕ) (st : String) (tup : Poll.Tuple) (e : RawErr),
        Poll.findTask c tid = some (.tickResults tid st tup) →
        ((Poll.stepPoll c (.resolveResults tid (.error e))).violations = c.violations ∧
          (Poll.stepPoll c (.resolveResults tid (.error e))).totalViolations
            = c.totalViolations ∧
          (Poll.stepPoll c (.resolveResults tid (.error e))).error
            = some (normalizeApiError e))) ∧
    (∀ (c : Poll.Config) (tid : ℕ) (tup : Poll.Tuple) (e : RawErr),
        Poll.findTask c tid = some (.oobResults tid tup) →
        ((Poll.stepPoll c (.resolveResults tid (.error e))).violations = c.violations ∧
          (Poll.stepPoll c (.resolveResults tid (.error e))).totalViolations
            = c.totalViolations ∧
          (Poll.stepPoll c (.resolveResults tid (.error e))).error
            = some (normalizeApiError e))) := by
  refine ⟨?_, ?_, ?_⟩
  · intro c tid e hr h
    simp only [Poll.stepPoll, h, Poll.statusResolve]
    rw [tickAfterStatus_err]
    · exact ⟨rfl, hr, rfl, rfl, rfl, rfl⟩
    · simp [Poll.removeTask, hr]
  · intro c tid st tup e h
    simp only [Poll.stepPoll, h]
    exact ⟨(Poll.tickFinish_obs _ _).2.2.1, (Poll.tickFinish_obs _ _).2.2.2,
      (Poll.tickFinish_obs _ _).2.1⟩
  · intro c tid tup e h
    simp only [Poll.stepPoll, h]
    exact ⟨rfl, rfl, rfl⟩

/-- Witness for C7 at concrete engine runs. -/
theorem claim_C7_error_handling_witness :
    (Poll.exStarted.runningRef = true ∧
      Poll.findTask Poll.exStarted 0 = some (.tickStatus 0) ∧
      (Poll.stepPoll Poll.exStarted (.resolveStatus 0 (.error (.strErr "down")))).error
          = some (normalizeApiError (.strErr "down")) ∧
      (Poll.stepPoll Poll.exStarted
          (.resolveStatus 0 (.error (.strErr "down")))).runningRef = true) ∧
    (Poll.findTask Poll.exSecondTick 3
        = some (.tickResults 3 "running" ⟨1, 10, ⟨"", ""⟩⟩) ∧
      (Poll.stepPoll Poll.exSecondTick (.resolveResults 3 (.error .nullErr))).violations
          = Poll.exSecondTick.violations) ∧
    (Poll.findTask Poll.exFilterChanged 2
        = some (.oobResults 2 ⟨1, 10, Poll.filterB⟩) ∧
      (Poll.stepPoll Poll.exFilterChanged
          (.resolveResults 2 (.error (.strErr "oops")))).violations
          = Poll.exFilterChanged.violations) :=
  ⟨⟨rfl, rfl,
      (claim_C7_error_handling.1 Poll.exStarted 0 (.strErr "down") rfl rfl).1,
      (claim_C7_error_handling.1 Poll.exStarted 0 (.strErr "down") rfl rfl).2.1⟩,
   ⟨rfl,
      (claim_C7_error_handling.2.1 Poll.exSecondTick 3 "running" ⟨1, 10, ⟨"", ""⟩⟩
        .nullErr rfl).1⟩,
   ⟨rfl,
      (claim_C7_error_handling.2.2 Poll.exFilterChanged 2 ⟨1, 10, Poll.filterB⟩
        (.strErr "oops") rfl).1⟩⟩

/-- C8 counterexample: for a payload whose only total is the non-numeric
`pagination.total = "n/a"`, no numeric total is present yet `totalViolations`
becomes `"n/a"`, not `null`. -/
theorem claim_C8_counterexample :
    isNumField (jsGet Poll.resPagString "total") = false ∧
    extractTotal Poll.resPagString = .str "n/a" ∧
    JsonVal.str "n/a" ≠ JsonVal.null :=
  ⟨rfl, rfl, fun h => JsonVal.noConfusion h⟩

/-- C8 amended: a successful results fetch replaces `violations` and
`totalViolations` wholesale; `violations` becomes the `violations` array of
an object payload or the bare-array payload itself; a numeric `total` field
takes precedence (never the array length); when `total` is not a number the
code falls back to `pagination.total` — adopting that value even when it is
non-numeric — and `totalViolations` becomes `null` exactly when that
fallback is also absent or `null`. -/
theorem claim_C8_results_extraction :
    (∀ (res : JsonVal) (xs : List JsonVal),
        jsGet res "violations" = some (.arr xs) → extractViolations res = xs) ∧
    (∀ xs : List JsonVal, extractViolations (.arr xs) = xs) ∧
    (∀ (res : JsonVal) (n : ℚ),
        jsGet res "total" = some (.num n) → extractTotal res = .num n) ∧
    (∀ res : JsonVal, isNumField (jsGet res "total") = false →
        (paginationChain res = none ∨ paginationChain res = some .null) →
        extractTotal res = .null) ∧
    (∀ (res v : JsonVal), isNumField (jsGet res "total") = false →
        paginationChain res = some v → v ≠ .null → extractTotal res = v) ∧
    (∀ (c : Poll.Config) (tid : ℕ) (tup : Poll.Tuple) (res : JsonVal),
        Poll.findTask c tid = some (.oobResults tid tup) →
        ((Poll.stepPoll c (.resolveResults tid (.ok res))).violations
            = extractViolations res ∧
          (Poll.stepPoll c (.resolveResults tid (.ok res))).totalViolations
            = extractTotal res ∧
          (Poll.stepPoll c (.resolveResults tid (.ok res))).error = none)) := by
  refine ⟨?_, ?_, ?_, ?_, ?_, ?_⟩
  · intro res xs h
    unfold extractViolations
    rw [h]
  · intro xs
    rfl
  · intro res n h
    unfold extractTotal
    rw [h]
  · intro res hnum hpag
    unfold extractTotal
    cases hjg : jsGet res "total" with
    | none => rcases hpag with hp | hp <;> simp [hp]
    | some v =>
        rw [hjg] at hnum
        cases v <;> simp [isNumField] at hnum <;> rcases hpag with hp | hp <;>
          rw [hp] <;> rfl
  · intro res v hnum hpag hne
    unfold extractTotal
    cases hjg : jsGet res "total" with
    | none =>
        rw [hpag]
        cases v <;> first | exact absurd rfl hne | rfl
    | some w =>
        rw [hjg] at hnum
        cases w <;> simp [isNumField] at hnum <;>
          (rw [hpag]; cases v <;> first | exact absurd rfl hne | rfl)
  · intro c tid tup res h
    simp only [Poll.stepPoll, h]
    exact ⟨rfl, rfl, rfl⟩

/-- Witness for C8 (amended) at concrete payloads. -/
theorem claim_C8_results_extraction_witness :
    jsGet (JsonVal.obj [("violations", .arr [.str "v1"])]) "violations"
        = some (.arr [.str "v1"]) ∧
    extractViolations (.obj [("violations", .arr [.str "v1"])]) = [.str "v1"] ∧
    extractViolations (.arr [.str "v2"]) = [.str "v2"] ∧
    (jsGet Poll.resBodyA "total" = some (.num 3) ∧
      extractTotal Poll.resBodyA = .num 3) ∧
    (isNumField (jsGet (JsonVal.obj []) "total") = false ∧
      paginationChain (JsonVal.obj []) = none ∧
      extractTotal (JsonVal.obj []) = .null) ∧
    (isNumField (jsGet Poll.resPagString "total") = false ∧
      paginationChain Poll.resPagString = some (.str "n/a") ∧
      extractTotal Poll.resPagString = .str "n/a") ∧
    (Poll.findTask Poll.exFilterChanged 2
        = some (.oobResults 2 ⟨1, 10, Poll.filterB⟩) ∧
      (Poll.stepPoll Poll.exFilterChanged
          (.resolveResults 2 (.ok Poll.resBodyA))).violations
        = extractViolations Poll.resBodyA) :=
  ⟨rfl, claim_C8_results_extraction.1 _ [.str "v1"] rfl,
   claim_C8_results_extraction.2.1 [.str "v2"],
   ⟨rfl, claim_C8_results_extraction.2.2.1 Poll.resBodyA 3 rfl⟩,
   ⟨rfl, rfl, claim_C8_results_extraction.2.2.2.1 (JsonVal.obj []) rfl (Or.inl rfl)⟩,
   ⟨rfl, rfl,
     claim_C8_results_extraction.2.2.2.2.1 Poll.resPagString (.str "n/a") rfl rfl
       (fun h => JsonVal.noConfusion h)⟩,
   ⟨rfl,
     (claim_C8_results_extraction.2.2.2.2.2 Poll.exFilterChanged 2 ⟨1, 10, Poll.filterB⟩
       Poll.resBodyA rfl).1⟩⟩

/-- C1: the code has no tuple-staleness guard — `fetchResults` applies
whatever response resolves, keyed to nothing.  Concretely: the first tick's
results fetch (request 1) is issued for the initial tuple
`(page 1, size 10, empty filter)`; the user then commits
`setFilter(filterB)` (so the current tuple changes and request 2 is issued
for it); when the STALE response for request 1 then resolves, its data is
written into `PollState` wholesale: `violations` and `totalViolations` now
show request 1's payload while the current filter is `filterB`. -/
theorem claim_C1_stale_response_applied :
    Poll.findTask Poll.exFilterChanged 1
        = some (.tickResults 1 "running" ⟨1, 10, ⟨"", ""⟩⟩) ∧
    Poll.exFilterChanged.filter = Poll.filterB ∧
    Poll.currentTuple Poll.exFilterChanged ≠ ⟨1, 10, ⟨"", ""⟩⟩ ∧
    Poll.exStaleApplied = Poll.stepPoll Poll.exFilterChanged
        (.resolveResults 1 (.ok Poll.resBodyA)) ∧
    Poll.exStaleApplied.violations = [.str "vA"] ∧
    Poll.exStaleApplied.totalViolations = .num 3 ∧
    Poll.exStaleApplied.filter = Poll.filterB := by
  refine ⟨rfl, rfl, ?_, rfl, rfl, rfl, rfl⟩
  decide
